import Mathlib

/-!
Shallow embedding of `src/server.py` (datax-mcp-server).

The server exposes independent tool functions: `add`, `read_csv_with_arrow`,
`filter_arrow_table_by_expr`, `plot_dict_and_save`, `write_table_to_csv`.
Python raising is modelled with `Except` / explicit error fields; the
filesystem and the pyarrow/pandas library calls are modelled by explicit
environment records (whether a read parses, whether a write succeeds) and by
structure-level versions of the table conversions the code performs.
-/

namespace DataxServer

/-- A scalar cell value as stored in a table column. -/
inductive CellValue where
  | int (n : Int)
  | str (s : String)
  | bool (b : Bool)
deriving DecidableEq

/-- `pa.Table` / `pd.DataFrame` data: named columns and rows of cells.
Rows are kept row-major because `df.query` filters rows. -/
structure ArrowTable where
  columns : List String
  rows : List (List CellValue)
deriving DecidableEq

/-- The loosely typed `table: Any` argument of the Python tools: an Arrow
table, a column→values dict, a pandas DataFrame, or a list of record dicts. -/
inductive Value where
  | table (t : ArrowTable)
  | mapping (m : List (String × List CellValue))
  | dataframe (t : ArrowTable)
  | records (rs : List (List (String × CellValue)))
deriving DecidableEq

/-- Python exception kinds raised by the embedded code. -/
inductive PyError where
  | valueError
  | typeError
  | attributeError
  | osError
deriving DecidableEq

/-- Comparison operators of the `df.query` expression grammar. -/
inductive CmpOp where
  | eq | ne | lt | le | gt | ge
deriving DecidableEq

/-- A filter expression string, shallowly parsed: comparisons of a column
against a literal, combined with `and` / `or`.  `malformed` stands for a
string that `df.query` cannot parse (its evaluation always fails). -/
inductive FilterExpr where
  | cmp (col : String) (op : CmpOp) (v : CellValue)
  | and (e1 e2 : FilterExpr)
  | or (e1 e2 : FilterExpr)
  | malformed
deriving DecidableEq

/-- Compare two cells; `none` models a pandas evaluation `TypeError`
(ordering mixed types). -/
def evalCmp : CmpOp → CellValue → CellValue → Option Bool
  | .eq, .int x, .int y => some (x == y)
  | .ne, .int x, .int y => some (x != y)
  | .lt, .int x, .int y => some (decide (x < y))
  | .le, .int x, .int y => some (decide (x ≤ y))
  | .gt, .int x, .int y => some (decide (y < x))
  | .ge, .int x, .int y => some (decide (y ≤ x))
  | .eq, .str x, .str y => some (x == y)
  | .ne, .str x, .str y => some (x != y)
  | .eq, .bool x, .bool y => some (x == y)
  | .ne, .bool x, .bool y => some (x != y)
  | _, _, _ => none

/-- Index of a column name in the column list (`none` = unknown column). -/
def colIdx : List String → String → Option Nat
  | [], _ => none
  | c :: cs, n => if c = n then some 0 else (colIdx cs n).map (· + 1)

/-- Evaluate a filter expression on one row; `none` models an evaluation
error (unknown column, unparsable expression, mixed-type ordering). -/
def rowSat (cols : List String) : FilterExpr → List CellValue → Option Bool
  | .cmp c op v, row =>
      match colIdx cols c with
      | none => none
      | some i =>
          match row.get? i with
          | none => none
          | some cell => evalCmp op cell v
  | .and e1 e2, row =>
      match rowSat cols e1 row, rowSat cols e2 row with
      | some b1, some b2 => some (b1 && b2)
      | _, _ => none
  | .or e1 e2, row =>
      match rowSat cols e1 row, rowSat cols e2 row with
      | some b1, some b2 => some (b1 || b2)
      | _, _ => none
  | .malformed, _ => none

/-- Static validity of an expression against a column list: `df.query`
resolves column names before touching any row. -/
def exprValid (cols : List String) : FilterExpr → Bool
  | .cmp c _ _ => (colIdx cols c).isSome
  | .and e1 e2 => exprValid cols e1 && exprValid cols e2
  | .or e1 e2 => exprValid cols e1 && exprValid cols e2
  | .malformed => false

/-- `df.query(filter_expr)`: fails (`none`, i.e. raises in Python) when the
expression is malformed, names an unknown column, or hits a row-level
evaluation error; otherwise keeps exactly the rows satisfying the
predicate, with the column set unchanged. -/
def dfQuery (e : FilterExpr) (t : ArrowTable) : Option ArrowTable :=
  if exprValid t.columns e && t.rows.all (fun r => (rowSat t.columns e r).isSome) then
    some ⟨t.columns, t.rows.filter (fun r => rowSat t.columns e r == some true)⟩
  else
    none

/-- Transpose a column→values dict of uniform length `n` into rows. -/
def transposeCols (m : List (String × List CellValue)) (n : Nat) :
    List (List CellValue) :=
  (List.range n).map fun i => m.map fun p => p.2.getD i (.int 0)

/-- `pa.Table.from_pandas(pd.DataFrame(dict))`: fails (`none`) when the
value lists have unequal lengths (pandas `ValueError`), else builds the
table with columns in dict order. -/
def dictToTable : List (String × List CellValue) → Option ArrowTable
  | [] => some ⟨[], []⟩
  | (k, v) :: rest =>
      if rest.all (fun p => p.2.length == v.length) then
        some ⟨k :: rest.map Prod.fst, transposeCols ((k, v) :: rest) v.length⟩
      else none

/-- `filter_arrow_table_by_expr` (server.py lines 77-109).  Inside the
`try`, a dict input is converted and **rebound** to the local `table`
variable before `df.query` runs, so the `except` clause returns whatever
`table` currently holds: the original value only if no rebinding happened,
the converted Arrow table otherwise.  A record list has no `.to_pandas()`;
the resulting `AttributeError` is caught and the original list returned. -/
def filter_arrow_table_by_expr (table : Value) (filter_expr : FilterExpr) :
    Value :=
  match table with
  | .table t =>
      match dfQuery filter_expr t with
      | some ft => .table ft
      | none => .table t
  | .mapping m =>
      match dictToTable m with
      | none => .mapping m
      | some t =>
          match dfQuery filter_expr t with
          | some ft => .table ft
          | none => .table t
  | .dataframe t =>
      match dfQuery filter_expr t with
      | some ft => .table ft
      | none => .table t
  | .records rs => .records rs

/-- Everything before the last occurrence of `c`, or `none` when `c` does
not occur.  Mirrors the head of Python's `s.rsplit(c, 1)`. -/
def beforeLast (c : Char) : List Char → Option (List Char)
  | [] => none
  | x :: xs =>
      match beforeLast c xs with
      | some r => some (x :: r)
      | none => if x = c then some [] else none

/-- Everything after the last occurrence of `c`, or `none` when `c` does
not occur. -/
def afterLast (c : Char) : List Char → Option (List Char)
  | [] => none
  | x :: xs =>
      match afterLast c xs with
      | some r => some r
      | none => if x = c then some xs else none

/-- Python `file_path.rsplit('.', 1)[0]` (server.py line 63): the whole
string when it has no dot, else everything before the **last** dot —
wherever in the path that dot occurs. -/
def rsplitDotHead (s : String) : String :=
  match beforeLast '.' s.data with
  | some r => ⟨r⟩
  | none => s

/-- `os.path.dirname`: everything before the last `/`, `""` when there is
no slash. -/
def dirname (s : String) : String :=
  match beforeLast '/' s.data with
  | some r => ⟨r⟩
  | none => ""

/-- Follows the spec's words, for comparison with `rsplitDotHead`: "the
input path with its extension replaced" — strip the extension of the
final path component (the filename) only, leaving directory components
untouched, then append the columnar extension. -/
def specReplaceExtension (fp : String) : String :=
  let chars := fp.data
  let base := match afterLast '/' chars with
    | some b => b
    | none => chars
  let dir := chars.take (chars.length - base.length)
  let newBase := match beforeLast '.' base with
    | some r => r
    | none => base
  (⟨dir ++ newBase⟩ : String) ++ ".parquet"

/-- Lines 61-63: the parquet path argument, defaulted from the CSV path
when `None`. -/
def resolveParquetPath (file_path : String) : Option String → String
  | some p => p
  | none => rsplitDotHead file_path ++ ".parquet"

/-- External-world outcomes for one `read_csv_with_arrow` call: what
`pacsv.read_csv` yields (`none` = it raises), and whether
`papq.write_table` succeeds. -/
structure IOEnv where
  parseResult : Option ArrowTable
  parquetWriteOk : Bool
deriving DecidableEq

/-- Observable outcome of `read_csv_with_arrow`: the returned value and the
path handed to `papq.write_table` (when that call is reached). -/
structure ReadResult where
  result : Option ArrowTable
  parquetTarget : Option String
deriving DecidableEq

/-- `read_csv_with_arrow` (server.py lines 37-74).  The whole body sits in
a `try` whose handlers return `None`, so a parse failure or a parquet
write failure both end as `none`; the parsed table is returned only when
every step taken succeeds. -/
def read_csv_with_arrow (env : IOEnv) (file_path : String)
    (display_data : Bool) (to_parquet : Bool) (parquet_path : Option String) :
    ReadResult :=
  match env.parseResult with
  | none => ⟨none, none⟩
  | some table =>
      if to_parquet then
        if env.parquetWriteOk then
          ⟨some table, some (resolveParquetPath file_path parquet_path)⟩
        else
          ⟨none, some (resolveParquetPath file_path parquet_path)⟩
      else ⟨some table, none⟩

/-- The `data` argument of `plot_dict_and_save`: a dict of key→number, or
any non-dict value (which `isinstance(data, dict)` rejects). -/
inductive PlotData where
  | dict (entries : List (String × Int))
  | notDict
deriving DecidableEq

/-- External-world bits for one `plot_dict_and_save` call: whether the
directory named by `dirname(save_path)` already exists, and whether
`os.makedirs` / `plt.savefig` succeed when called. -/
structure PlotEnv where
  dirExists : Bool
  makedirsOk : Bool
  savefigOk : Bool
deriving DecidableEq

/-- Observable outcome of `plot_dict_and_save`: the raised error (if any)
and which side effects happened, including the matplotlib figure
lifecycle. -/
structure PlotOutcome where
  error : Option PyError
  dirsCreated : Bool
  fileWritten : Bool
  figureOpened : Bool
  figureClosed : Bool
deriving DecidableEq

/-- `plot_dict_and_save` (server.py lines 112-151).  The dict check raises
`ValueError` before anything else; `plt.figure()` then opens the figure;
`os.path.dirname(None)` raises `TypeError` when `save_path` is left at its
`None` default; `os.makedirs` and `plt.savefig` may raise `OSError`.
`plt.close()` is the last statement of the straight-line body — there is no
`try`/`finally` or context manager around the figure. -/
def plot_dict_and_save (data : PlotData) (save_path : Option String)
    (env : PlotEnv) : PlotOutcome :=
  match data with
  | .notDict =>
      { error := some .valueError, dirsCreated := false, fileWritten := false,
        figureOpened := false, figureClosed := false }
  | .dict _ =>
      match save_path with
      | none =>
          { error := some .typeError, dirsCreated := false,
            fileWritten := false, figureOpened := true, figureClosed := false }
      | some sp =>
          if (dirname sp != "") && !env.dirExists then
            if env.makedirsOk then
              if env.savefigOk then
                { error := none, dirsCreated := true, fileWritten := true,
                  figureOpened := true, figureClosed := true }
              else
                { error := some .osError, dirsCreated := true,
                  fileWritten := false, figureOpened := true,
                  figureClosed := false }
            else
              { error := some .osError, dirsCreated := false,
                fileWritten := false, figureOpened := true,
                figureClosed := false }
          else
            if env.savefigOk then
              { error := none, dirsCreated := false, fileWritten := true,
                figureOpened := true, figureClosed := true }
            else
              { error := some .osError, dirsCreated := false,
                fileWritten := false, figureOpened := true,
                figureClosed := false }

/-- `write_table_to_csv` (server.py lines 155-182).  The debug print on
line 166 evaluates `table.num_rows` and `table.num_columns` **before** the
`try` block opens, so any input without those attributes — a dict, a
DataFrame, a record list — raises `AttributeError` uncaught; the dict /
DataFrame conversion code inside the `try` is never reached for them.  For
an Arrow table the `try` catches a csv write failure and returns `False`. -/
def write_table_to_csv (table : Value) (output_path : String)
    (csvWriteOk : Bool) : Except PyError Bool :=
  match table with
  | .table _ => if csvWriteOk then .ok true else .ok false
  | .mapping _ => .error .attributeError
  | .dataframe _ => .error .attributeError
  | .records _ => .error .attributeError

/-- `add` (server.py lines 16-19). -/
def add (a b : Int) : Int :=
  a + b

/-! ### Helper lemmas -/

theorem beforeLast_eq_none {c : Char} :
    ∀ {s : List Char}, beforeLast c s = none ↔ c ∉ s := by
  intro s
  induction s with
  | nil => simp [beforeLast]
  | cons x xs ih =>
      unfold beforeLast
      cases h : beforeLast c xs with
      | some r =>
          have hmem : c ∈ xs := by
            by_contra hc
            have hn := ih.mpr hc
            rw [h] at hn
            exact Option.noConfusion hn
          simp [List.mem_cons, hmem]
      | none =>
          have hnotin : c ∉ xs := ih.mp h
          by_cases hx : x = c
          · subst hx
            simp
          · have hcx : c ≠ x := fun hcc => hx hcc.symm
            simp [hx, List.mem_cons, hcx, hnotin]

theorem rsplitDotHead_of_no_dot {s : String} (h : ('.' : Char) ∉ s.data) :
    rsplitDotHead s = s := by
  unfold rsplitDotHead
  rw [(beforeLast_eq_none).mpr h]

theorem dfQuery_eq_some {e : FilterExpr} {t ft : ArrowTable}
    (h : dfQuery e t = some ft) :
    ft.columns = t.columns ∧
    ft.rows = t.rows.filter (fun r => rowSat t.columns e r == some true) := by
  unfold dfQuery at h
  split at h
  · cases h
    exact ⟨rfl, rfl⟩
  · exact absurd h (by simp)

theorem filter_table_of_query_some {e : FilterExpr} {t ft : ArrowTable}
    (h : dfQuery e t = some ft) :
    filter_arrow_table_by_expr (.table t) e = .table ft := by
  simp [filter_arrow_table_by_expr, h]

theorem filter_eq_nil_of_all_not {α : Type} (p : α → Bool) :
    ∀ l : List α, (l.all fun a => !p a) = true → l.filter p = [] := by
  intro l
  induction l with
  | nil => intro _; rfl
  | cons a l ih =>
      intro h
      simp only [List.all_cons, Bool.and_eq_true, Bool.not_eq_eq_eq_not,
        Bool.not_true] at h
      simp [List.filter, h.1, ih (by simpa using h.2)]

/-! ### Claim theorems -/

/-- Claim C9: for every pair of integers `a` and `b`, including negatives
and zero, `add a b` returns exactly `a + b`. -/
theorem add_spec : ∀ a b : Int, add a b = a + b :=
  fun _ _ => rfl

/-- Claim C7: for every non-mapping value passed as the `data` argument,
`plot_dict_and_save` raises a validation error (`ValueError`) and performs
no filesystem effect: no directory is created and no image file is
written (it does not even open a figure). -/
theorem plot_nonmapping_validation_no_effect :
    ∀ (sp : Option String) (env : PlotEnv),
      plot_dict_and_save .notDict sp env =
        { error := some .valueError, dirsCreated := false,
          fileWritten := false, figureOpened := false, figureClosed := false } :=
  fun _ _ => rfl

/-- Claim C1 (code bug): at the failing input — a column→values mapping,
the very shape the function's own conversion code is written for — the
debug print before the `try` block evaluates `table.num_rows` and raises
`AttributeError` to the caller instead of returning a boolean. -/
theorem write_csv_raises_on_mapping_input :
    write_table_to_csv
        (.mapping [("a", [.int 1, .int 2]), ("b", [.int 3, .int 4])])
        "out.csv" true
      = .error .attributeError :=
  rfl

/-- Claim C10: when the CSV parses successfully but the parquet write
fails, `read_csv_with_arrow` with the conversion flag set returns the
`none` sentinel, discarding the already parsed table. -/
theorem read_csv_parquet_failure_discards_table
    (env : IOEnv) (fp : String) (dd : Bool) (pp : Option String)
    (t : ArrowTable) (hp : env.parseResult = some t)
    (hw : env.parquetWriteOk = false) :
    (read_csv_with_arrow env fp dd true pp).result = none := by
  simp [read_csv_with_arrow, hp, hw]

/-- Witness for C10 at a concrete environment. -/
theorem read_csv_parquet_failure_discards_table_witness :
    (IOEnv.mk (some ⟨["a"], [[.int 1]]⟩) false).parseResult
        = some ⟨["a"], [[.int 1]]⟩
    ∧ (read_csv_with_arrow ⟨some ⟨["a"], [[.int 1]]⟩, false⟩ "f.csv" true true
        none).result = none :=
  ⟨rfl, read_csv_parquet_failure_discards_table
      ⟨some ⟨["a"], [[.int 1]]⟩, false⟩ "f.csv" true none
      ⟨["a"], [[.int 1]]⟩ rfl rfl⟩

/-- Claim C5: `read_csv_with_arrow` never raises (it is a total function
into `ReadResult`); its result is the `none` sentinel exactly when the
parse failed or a requested parquet write failed, and whenever it returns
a table, that table is the parse result. -/
theorem read_csv_sentinel_contract
    (env : IOEnv) (fp : String) (dd tp : Bool) (pp : Option String) :
    ((read_csv_with_arrow env fp dd tp pp).result = none ↔
        (env.parseResult = none ∨ (tp = true ∧ env.parquetWriteOk = false)))
    ∧ (∀ t, (read_csv_with_arrow env fp dd tp pp).result = some t →
        env.parseResult = some t) := by
  obtain ⟨pr, wok⟩ := env
  cases pr <;> cases tp <;> cases wok <;>
    simp [read_csv_with_arrow]

/-- Witness for C5 at a concrete environment: a successful read returns
the parsed table. -/
theorem read_csv_sentinel_contract_witness :
    (read_csv_with_arrow ⟨some ⟨["a"], [[.int 1]]⟩, true⟩ "f.csv" true false
        none).result = some ⟨["a"], [[.int 1]]⟩
    ∧ (IOEnv.mk (some ⟨["a"], [[.int 1]]⟩) true).parseResult
        = some ⟨["a"], [[.int 1]]⟩ :=
  ⟨rfl, (read_csv_sentinel_contract ⟨some ⟨["a"], [[.int 1]]⟩, true⟩ "f.csv"
      true false none).2 ⟨["a"], [[.int 1]]⟩ rfl⟩

/-- Claim C2 counterexample: a mapping input `{"a": [1]}` with a malformed
expression comes back as the **converted Arrow table**, not a value
deep-equal to the original mapping — the `except` clause returns the local
variable after it was rebound to the conversion result. -/
theorem filter_mapping_failure_not_deep_equal :
    filter_arrow_table_by_expr (.mapping [("a", [.int 1])]) .malformed
      = .table ⟨["a"], [[.int 1]]⟩
    ∧ filter_arrow_table_by_expr (.mapping [("a", [.int 1])]) .malformed
      ≠ .mapping [("a", [.int 1])] := by
  exact ⟨by decide, by decide⟩

/-- Claim C2 as amended: on evaluation failure `filter_arrow_table_by_expr`
never raises; a TabularData input, a record-list input, and a mapping whose
conversion itself failed come back unchanged, while a mapping (or
DataFrame) that was successfully normalized before the failure comes back
as the normalized Arrow table rather than the original value. -/
theorem filter_failure_fallback :
    (∀ (t : ArrowTable) (e : FilterExpr), dfQuery e t = none →
        filter_arrow_table_by_expr (.table t) e = .table t)
    ∧ (∀ (rs : List (List (String × CellValue))) (e : FilterExpr),
        filter_arrow_table_by_expr (.records rs) e = .records rs)
    ∧ (∀ (m : List (String × List CellValue)) (e : FilterExpr),
        dictToTable m = none →
        filter_arrow_table_by_expr (.mapping m) e = .mapping m)
    ∧ (∀ (m : List (String × List CellValue)) (e : FilterExpr)
        (t : ArrowTable), dictToTable m = some t → dfQuery e t = none →
        filter_arrow_table_by_expr (.mapping m) e = .table t)
    ∧ (∀ (t : ArrowTable) (e : FilterExpr), dfQuery e t = none →
        filter_arrow_table_by_expr (.dataframe t) e = .table t) := by
  refine ⟨?_, ?_, ?_, ?_, ?_⟩
  · intro t e h
    simp [filter_arrow_table_by_expr, h]
  · intro rs e
    rfl
  · intro m e h
    simp [filter_arrow_table_by_expr, h]
  · intro m e t h1 h2
    simp [filter_arrow_table_by_expr, h1, h2]
  · intro t e h
    simp [filter_arrow_table_by_expr, h]

/-- Witness for C2 (amended) at a concrete table and failing expression. -/
theorem filter_failure_fallback_witness :
    dfQuery .malformed ⟨["a"], [[.int 1]]⟩ = none
    ∧ filter_arrow_table_by_expr (.table ⟨["a"], [[.int 1]]⟩) .malformed
        = .table ⟨["a"], [[.int 1]]⟩ :=
  ⟨by decide,
    filter_failure_fallback.1 ⟨["a"], [[.int 1]]⟩ .malformed (by decide)⟩

/-- Claim C3 counterexample: a row-oriented record collection is **not**
normalized — a Python list has no `.to_pandas()`, the `AttributeError` is
caught, and the original list is returned unfiltered instead of the
TabularData of matching rows that the claim requires (here the well-formed
expression `a > 0` matches the single record). -/
theorem filter_records_not_normalized :
    filter_arrow_table_by_expr (.records [[("a", CellValue.int 1)]])
        (.cmp "a" .gt (.int 0))
      = .records [[("a", CellValue.int 1)]]
    ∧ filter_arrow_table_by_expr (.records [[("a", CellValue.int 1)]])
        (.cmp "a" .gt (.int 0))
      ≠ .table ⟨["a"], [[.int 1]]⟩ := by
  exact ⟨by decide, by decide⟩

/-- Claim C3 as amended: TabularData inputs directly, and mapping inputs
after normalization, are filtered by a well-formed expression into a new
TabularData holding exactly the rows satisfying the predicate, with the
column set unchanged; record collections are not normalized and come back
unfiltered. -/
theorem filter_normalize_and_match :
    (∀ (t : ArrowTable) (e : FilterExpr) (ft : ArrowTable),
        dfQuery e t = some ft →
        filter_arrow_table_by_expr (.table t) e = .table ft
        ∧ ft.columns = t.columns
        ∧ ft.rows = t.rows.filter (fun r => rowSat t.columns e r == some true))
    ∧ (∀ (m : List (String × List CellValue)) (t ft : ArrowTable)
        (e : FilterExpr), dictToTable m = some t → dfQuery e t = some ft →
        filter_arrow_table_by_expr (.mapping m) e = .table ft) := by
  constructor
  · intro t e ft h
    exact ⟨filter_table_of_query_some h, (dfQuery_eq_some h).1,
      (dfQuery_eq_some h).2⟩
  · intro m t ft e h1 h2
    simp [filter_arrow_table_by_expr, h1, h2]

/-- Witness for C3 (amended): filtering `a > 5` over rows `[1], [7]` keeps
exactly the row `[7]`. -/
theorem filter_normalize_and_match_witness :
    dfQuery (.cmp "a" .gt (.int 5)) ⟨["a"], [[.int 1], [.int 7]]⟩
        = some ⟨["a"], [[.int 7]]⟩
    ∧ filter_arrow_table_by_expr (.table ⟨["a"], [[.int 1], [.int 7]]⟩)
        (.cmp "a" .gt (.int 5)) = .table ⟨["a"], [[.int 7]]⟩ :=
  ⟨by decide, (filter_normalize_and_match.1 ⟨["a"], [[.int 1], [.int 7]]⟩
      (.cmp "a" .gt (.int 5)) ⟨["a"], [[.int 7]]⟩ (by decide)).1⟩

/-- Claim C4: a well-formed filter expression matching zero rows of a
TabularData input yields a TabularData with zero rows and the same column
set as the input. -/
theorem filter_zero_match_keeps_columns
    (t : ArrowTable) (e : FilterExpr) (ft : ArrowTable)
    (h : dfQuery e t = some ft)
    (hz : (t.rows.all fun r => !(rowSat t.columns e r == some true)) = true) :
    filter_arrow_table_by_expr (.table t) e = .table ft
    ∧ ft.rows = [] ∧ ft.columns = t.columns := by
  obtain ⟨hc, hr⟩ := dfQuery_eq_some h
  refine ⟨filter_table_of_query_some h, ?_, hc⟩
  rw [hr]
  exact filter_eq_nil_of_all_not _ _ hz

/-- Witness for C4: `a > 5` matches no row of a one-row table; the result
has zero rows and the same single column. -/
theorem filter_zero_match_keeps_columns_witness :
    dfQuery (.cmp "a" .gt (.int 5)) ⟨["a"], [[.int 1]]⟩ = some ⟨["a"], []⟩
    ∧ (ArrowTable.mk ["a"] []).rows = []
    ∧ filter_arrow_table_by_expr (.table ⟨["a"], [[.int 1]]⟩)
        (.cmp "a" .gt (.int 5)) = .table ⟨["a"], []⟩ := by
  have h := filter_zero_match_keeps_columns ⟨["a"], [[.int 1]]⟩
      (.cmp "a" .gt (.int 5)) ⟨["a"], []⟩ (by decide) (by decide)
  exact ⟨by decide, h.2.1, h.1⟩

/-- Claim C6 counterexample: for input path `"data.d/input"` — whose only
dot sits in a directory component — the default parquet target is
`"data.parquet"`, not the path with the filename's extension replaced
(which, per the spec's words, would be `"data.d/input.parquet"`). -/
theorem default_parquet_path_counterexample :
    (read_csv_with_arrow ⟨some ⟨["a"], []⟩, true⟩ "data.d/input" false true
        none).parquetTarget = some "data.parquet"
    ∧ specReplaceExtension "data.d/input" = "data.d/input.parquet"
    ∧ ("data.parquet" : String) ≠ "data.d/input.parquet" := by
  exact ⟨by decide, by decide, by decide⟩

/-- Claim C6 as amended: with the conversion flag set and no explicit
parquet path, the parquet file is written at the input path truncated at
its **last dot anywhere in the path** with `".parquet"` appended; when the
path contains no dot, `".parquet"` is appended to the whole path.  This
equals "extension replaced" only when the last dot lies in the filename. -/
theorem read_csv_default_parquet_target
    (env : IOEnv) (fp : String) (dd : Bool) (t : ArrowTable)
    (hp : env.parseResult = some t) :
    (read_csv_with_arrow env fp dd true none).parquetTarget
        = some (rsplitDotHead fp ++ ".parquet")
    ∧ (('.' : Char) ∉ fp.data → rsplitDotHead fp = fp) := by
  constructor
  · cases hw : env.parquetWriteOk <;>
      simp [read_csv_with_arrow, hp, hw, resolveParquetPath]
  · exact rsplitDotHead_of_no_dot

/-- Witness for C6 (amended) at the path `"file.csv"`. -/
theorem read_csv_default_parquet_target_witness :
    (IOEnv.mk (some ⟨["a"], []⟩) true).parseResult = some ⟨["a"], []⟩
    ∧ (read_csv_with_arrow ⟨some ⟨["a"], []⟩, true⟩ "file.csv" false true
        none).parquetTarget = some "file.parquet" := by
  have h := read_csv_default_parquet_target ⟨some ⟨["a"], []⟩, true⟩
      "file.csv" false ⟨["a"], []⟩ rfl
  refine ⟨rfl, ?_⟩
  rw [h.1]
  decide

/-- Claim C8 counterexample: with `data = {"x": 1}`, a missing output
directory and a failing `plt.savefig`, the figure is opened but never
closed — `plt.close()` is only reached on the success path. -/
theorem plot_savefig_failure_leaks_figure :
    (plot_dict_and_save (.dict [("x", 1)]) (some "out/chart.png")
        ⟨false, true, false⟩).figureOpened = true
    ∧ (plot_dict_and_save (.dict [("x", 1)]) (some "out/chart.png")
        ⟨false, true, false⟩).figureClosed = false
    ∧ (plot_dict_and_save (.dict [("x", 1)]) (some "out/chart.png")
        ⟨false, true, false⟩).error = some .osError := by
  exact ⟨by decide, by decide, by decide⟩

/-- Claim C8 as amended: the figure is released exactly on normal
completion — on every error exit after the figure is acquired (missing
`save_path`, directory-creation failure, image-write failure) the figure
stays open, and on the validation exit it was never acquired. -/
theorem plot_figure_closed_iff_success
    (d : PlotData) (sp : Option String) (env : PlotEnv) :
    (plot_dict_and_save d sp env).figureClosed = true ↔
      ((plot_dict_and_save d sp env).error = none
        ∧ (plot_dict_and_save d sp env).figureOpened = true) := by
  obtain ⟨de, mo, so⟩ := env
  cases d <;> cases sp <;> cases de <;> cases mo <;> cases so <;>
    simp [plot_dict_and_save] <;> (try split) <;> simp

end DataxServer
